import Mathlib

/-
Verification development for the s3-transfer-manager multipart download engine
(lib-storage).  The definitions below are a shallow embedding of the TypeScript
source: the pure arithmetic and control flow of the latest S3TransferManager
variant (the one declaring checkAborted, validateExpectedRanges and the
promise-collecting download), of the earlier variant where it differs
(validateConfig), of join-streams.ts, and of the event-listener registry.
Network I/O is represented by an oracle function from requests to responses,
cooperative cancellation by the number of sub-requests issued before the abort
signal is observed set, and byte streams by their lists of chunks.
-/

namespace S3TM

instance {e a : Type} [DecidableEq e] [DecidableEq a] : DecidableEq (Except e a) := fun x y =>
  match x, y with
  | .ok v, .ok w => if h : v = w then .isTrue (by rw [h]) else .isFalse (by simp [h])
  | .error v, .error w => if h : v = w then .isTrue (by rw [h]) else .isFalse (by simp [h])
  | .ok _, .error _ => .isFalse (by simp)
  | .error _, .ok _ => .isFalse (by simp)

/-- MIN_PART_SIZE = 5 * 1024 * 1024 (S3TransferManager static field). -/
def MIN_PART_SIZE : Nat := 5 * 1024 * 1024

/-- DEFAULT_PART_SIZE = 8 * 1024 * 1024 (S3TransferManager static field). -/
def DEFAULT_PART_SIZE : Nat := 8 * 1024 * 1024

/-
Range Validator (validateExpectedRanges).  A ContentRange is the parsed form of
a well-formed textual descriptor "bytes start-end/total"; the TypeScript
parseContentRange extracts the three decimal fields ("end" is a Lean keyword,
so that field is named stop here).
-/

structure ContentRange where
  start : Nat
  stop : Nat
  total : Nat
deriving DecidableEq, Repr

/-- Errors of the range validator, per the throw sites of validateExpectedRanges:
the first throw names the expected and the actual start of part partNum
(RangeSequenceError), the second fires when the current part is shorter than the
previous one yet does not end at total - 1 (IncompleteRangeError). -/
inductive RangeValidationError where
  | rangeSequenceError (partNum expected got : Nat)
  | incompleteRangeError (total start expectedEnd : Int)
deriving DecidableEq, Repr

/-- Shallow embedding of S3TransferManager.validateExpectedRanges on parsed
descriptors.  Sizes are computed in Int exactly as JavaScript number arithmetic
does on the parsed nonnegative integers. -/
def validateExpectedRanges (previous current : ContentRange) (partNum : Nat) :
    Except RangeValidationError Unit :=
  let expectedStart := previous.stop + 1
  let prevPartSize : Int := (previous.stop : Int) - (previous.start : Int) + 1
  let currPartSize : Int := (current.stop : Int) - (current.start : Int) + 1
  if current.start ≠ expectedStart then
    .error (.rangeSequenceError partNum expectedStart current.start)
  else if currPartSize < prevPartSize ∧ (current.stop : Int) ≠ (current.total : Int) - 1 then
    .error (.incompleteRangeError (current.total : Int) (current.start : Int) (currPartSize - 1))
  else
    .ok ()

/-
Stream Joiner (join-streams.ts: joinStreams and iterateStreams).  A stream
handle is a web ReadableStream, a Blob, a Node Readable, or anything else; the
two readable kinds carry their list of byte chunks.
-/

inductive StreamHandle where
  | web (chunks : List (List Nat))
  | blob
  | node (chunks : List (List Nat))
  | other
deriving DecidableEq, Repr

inductive StreamError where
  | blobUnsupported
deriving DecidableEq, Repr

/-- Chunks a handle would yield when drained by iterateStreams. -/
def chunksOf : StreamHandle → List (List Nat)
  | .web cs => cs
  | .node cs => cs
  | .blob => []
  | .other => []

/-- Byte sequence of one handle. -/
def streamBytes (s : StreamHandle) : List Nat := (chunksOf s).flatten

/-- True for the two stream kinds iterateStreams actually drains. -/
def isDrainable : StreamHandle → Bool
  | .web _ => true
  | .node _ => true
  | _ => false

/-- Shallow embedding of iterateStreams: walk the handles in list position
order; a web stream is read chunk by chunk to completion, a Blob throws
"Blob not supported yet", a Node Readable is iterated chunk by chunk, and any
other element falls through the if/else-if chain with no branch taken.  The
result is the list of yielded chunks together with the error that stopped the
generator, if any. -/
def iterateStreams : List StreamHandle → List (List Nat) × Option StreamError
  | [] => ([], none)
  | .web cs :: rest =>
    let r := iterateStreams rest
    (cs ++ r.1, r.2)
  | .blob :: _ => ([], some .blobUnsupported)
  | .node cs :: rest =>
    let r := iterateStreams rest
    (cs ++ r.1, r.2)
  | .other :: rest => iterateStreams rest

/-- Shallow embedding of joinStreams at the level of the byte sequence the
joined stream delivers: a single-element list is returned as-is; otherwise a
Blob head throws, and both the web-stream head case (a new ReadableStream fed
by iterateStreams) and the fallback case (Readable.from(iterateStreams)) yield
exactly the chunks of iterateStreams. -/
def joinStreamsBytes : List StreamHandle → Except StreamError (List Nat)
  | [s] => .ok (streamBytes s)
  | streams =>
    match streams.head? with
    | some .blob => .error .blobUnsupported
    | _ =>
      let r := iterateStreams streams
      match r.2 with
      | some e => .error e
      | none => .ok r.1.flatten

/-
Event Dispatch Subsystem (addEventListener / removeEventListener /
dispatchEvent of the latest variant).  A listener entry stores the reference
that was pushed onto the per-kind array: regId identifies that exact reference
(each addEventListener call pushes a fresh once-wrapper when options.once is
set, so wrapper references are unique), callback is the underlying callback
invoked when the entry runs, and once records whether the entry is a
once-wrapper that removes itself right after invoking the callback.
-/

structure ListenerEntry where
  regId : Nat
  callback : Nat
  once : Bool
deriving DecidableEq, Repr

/-- The removeEventListener splice loop: every occurrence of the exact
reference is removed. -/
def removeEntry (listeners : List ListenerEntry) (regId : Nat) : List ListenerEntry :=
  listeners.filter (fun e => e.regId ≠ regId)

/-- The addEventListener push: a no-op when the registration signal is already
aborted, otherwise the entry is appended to the kind's array. -/
def addEventListener (listeners : List ListenerEntry) (regId callback : Nat)
    (once : Bool) (signalAborted : Bool) : List ListenerEntry :=
  if signalAborted then listeners
  else listeners ++ [{ regId := regId, callback := callback, once := once }]

/-- One step per loop turn of dispatchEvent's for-of over the live listeners
array (JavaScript array iteration: check index against current length, read the
element at the index, run it - a once-wrapper invokes its callback and then
splices itself out of the same array - and advance the index).  Returns the
invoked callbacks in order and the final array.  The fuel argument only bounds
the recursion; listeners.length + 1 turns always suffice since the index grows
by one per turn and the array never grows during dispatch. -/
def dispatchLoop : Nat → List ListenerEntry → Nat → List Nat × List ListenerEntry
  | 0, listeners, _ => ([], listeners)
  | fuel + 1, listeners, i =>
    match listeners[i]? with
    | none => ([], listeners)
    | some e =>
      let listeners1 := if e.once then removeEntry listeners e.regId else listeners
      let r := dispatchLoop fuel listeners1 (i + 1)
      (e.callback :: r.1, r.2)

/-- Shallow embedding of dispatchEvent for one event kind's listener array. -/
def dispatchEvent (listeners : List ListenerEntry) : List Nat × List ListenerEntry :=
  dispatchLoop (listeners.length + 1) listeners 0

/-
Configuration & Validation.  The earlier S3TransferManager variant's
validateConfig checks the minimum part size and that checksumAlgorithm is one
of the five recognized values; the latest variant's validateConfig checks only
the part size.  The constructor resolves defaults (DEFAULT_PART_SIZE, "CRC32")
before validating.
-/

inductive ConfigError where
  | partSizeTooSmall
  | invalidChecksumAlgorithm
deriving DecidableEq, Repr

def recognizedChecksumAlgorithms : List String :=
  ["CRC32", "CRC32C", "CRC64NVME", "SHA1", "SHA256"]

/-- Shallow embedding of the earlier variant's validateConfig (part size and
checksum algorithm checks, in source order). -/
def validateConfigEarly (targetPartSizeBytes : Nat) (checksumAlgorithm : String) :
    Except ConfigError Unit :=
  if targetPartSizeBytes < MIN_PART_SIZE then
    .error .partSizeTooSmall
  else if checksumAlgorithm ≠ "CRC32" ∧ checksumAlgorithm ≠ "CRC32C" ∧
      checksumAlgorithm ≠ "CRC64NVME" ∧ checksumAlgorithm ≠ "SHA1" ∧
      checksumAlgorithm ≠ "SHA256" then
    .error .invalidChecksumAlgorithm
  else
    .ok ()

/-- Shallow embedding of the latest variant's validateConfig (part size check
only). -/
def validateConfigLatest (targetPartSizeBytes : Nat) : Except ConfigError Unit :=
  if targetPartSizeBytes < MIN_PART_SIZE then
    .error .partSizeTooSmall
  else
    .ok ()

/-- Shallow embedding of the latest variant's constructor as far as config
resolution goes: optional fields resolve to their defaults, then
validateConfig (latest form) runs; on success the resolved pair
(targetPartSizeBytes, checksumAlgorithm) is the frozen configuration. -/
def constructLatest (targetPartSizeBytes : Option Nat) (checksumAlgorithm : Option String) :
    Except ConfigError (Nat × String) :=
  let partSize := targetPartSizeBytes.getD DEFAULT_PART_SIZE
  let alg := checksumAlgorithm.getD "CRC32"
  match validateConfigLatest partSize with
  | .error e => .error e
  | .ok _ => .ok (partSize, alg)

/-
Download Orchestrator (the latest variant's async download method).  The
embedding records, in program order, the externally visible actions the method
performs: registering the call-scoped listeners passed in transferOptions,
issuing a GetObject sub-request to the client, and dispatching a
transferInitiated event.  The object-store client is an oracle from requests
to responses (only responses that the code awaits are consulted; sub-requests
pushed as promises are recorded as issued but their responses are never read
inside download).  The abort signal is modelled by abortAfter: checkAborted
observes the signal set exactly when at least abortAfter sub-requests have
already been issued (some 0 = already aborted at invocation, none = never).
Body/stream payloads are not modelled: the claims settled against this machine
concern the request plan, events, cancellation and listener lifecycle.
-/

inductive MultipartDownloadType where
  | part
  | range
deriving DecidableEq, Repr

structure TMConfig where
  multipartDownloadType : MultipartDownloadType
  targetPartSizeBytes : Nat
deriving DecidableEq, Repr

/-- The caller's DownloadRequest: optional explicit part number, optional
byte range (the parsed form of "bytes=a-b"), optional version id. -/
structure DownloadRequest where
  partNumber : Option Nat := none
  range : Option (Nat × Nat) := none
  versionId : Option String := none
deriving DecidableEq, Repr

/-- A GetObject sub-request as built by download (fields beyond the claim's
reach - bucket, key - are constant across one call and omitted). -/
structure GetObjectRequest where
  partNumber : Option Nat := none
  range : Option (Nat × Nat) := none
  ifMatch : Option String := none
deriving DecidableEq, Repr

/-- The part of a GetObject response download reads synchronously:
ContentRange parsed as (start, end, total), PartsCount and ETag. -/
structure GetObjectResponse where
  contentRange : Option (Nat × Nat × Nat) := none
  partsCount : Option Nat := none
  eTag : Option String := none
deriving DecidableEq, Repr

inductive DownloadError where
  | abortError
  | partNumberUnsupported
  | fuelExhausted
deriving DecidableEq, Repr

inductive DownloadAction where
  | registerCallScopedListeners
  | getObjectRequest (r : GetObjectRequest)
  | transferInitiatedEvent (totalBytes : Option Nat)
deriving DecidableEq, Repr

/-- Outcome of one download call: the ordered action log, the result
(normal return or thrown error), and whether control reached the joinStreams
call - the only place the removeLocalEventListeners cleanup closure gets wired
(into the joined stream's onCompletion/onFailure callbacks); on any path that
throws earlier the cleanup is never attached and never runs. -/
structure DownloadTrace where
  actions : List DownloadAction
  result : Except DownloadError Unit
  cleanupWiredToStream : Bool
deriving DecidableEq, Repr

/-- Shallow embedding of the private checkAborted: true exactly when the
signal is observed set, which under the abortAfter model happens once at least
abortAfter sub-requests have been issued. -/
def checkAborted (issued : Nat) (abortAfter : Option Nat) : Bool :=
  match abortAfter with
  | none => false
  | some k => decide (k ≤ issued)

/-- Math.min against a possibly infinite bound (maxRange starts as
Number.POSITIVE_INFINITY, modelled none). -/
def minCap (x : Nat) (cap : Option Nat) : Nat :=
  match cap with
  | none => x
  | some m => min x m

/-- The loop guard value of the RANGE branch:
remainingLength = totalSize ? Math.min(right - left + 1, Math.max(0, totalSize - left)) : 0,
computed in Int exactly as JavaScript does. -/
def remainingLength (totalSize : Option Nat) (left right : Nat) : Int :=
  match totalSize with
  | some total => min ((right : Int) - (left : Int) + 1) (max 0 ((total : Int) - (left : Int)))
  | none => 0

/-- The PART branch's parts 2..PartsCount loop: before each sub-request the
abort signal is checked (throwing AbortError ends the call), then the
sub-request carrying PartNumber := part and - unless the request pins a
VersionId - IfMatch := the initial part's ETag is issued as a promise. -/
def partLoop (abortAfter : Option Nat) (base : DownloadRequest) (initialETag : Option String) :
    List Nat → Nat → List DownloadAction × Except DownloadError Unit
  | [], _ => ([], .ok ())
  | p :: rest, issued =>
    if checkAborted issued abortAfter then ([], .error .abortError)
    else
      let r : GetObjectRequest :=
        { partNumber := some p
          range := base.range
          ifMatch := if base.versionId.isNone then initialETag else none }
      let nxt := partLoop abortAfter base initialETag rest (issued + 1)
      (.getObjectRequest r :: nxt.1, nxt.2)

/-- The RANGE branch's while (remainingLength > 0) loop: check the abort
signal (throwing AbortError ends the call), issue the window
Range := bytes=left-right with the ETag precondition (unless a VersionId is
pinned), then advance left = right + 1,
right = Math.min(left + MIN_PART_SIZE - 1, maxRange) and recompute
remainingLength.  The loop terminates because left strictly grows while the
guard needs left < totalSize; fuel = totalSize + 1 therefore never runs out on
the paths the theorems evaluate. -/
def rangeLoop (abortAfter : Option Nat) (base : DownloadRequest) (initialETag : Option String)
    (totalSize : Option Nat) (maxRange : Option Nat) :
    Nat → Nat → Nat → Nat → List DownloadAction × Except DownloadError Unit
  | 0, _, left, right =>
    if remainingLength totalSize left right > 0 then ([], .error .fuelExhausted)
    else ([], .ok ())
  | fuel + 1, issued, left, right =>
    if remainingLength totalSize left right > 0 then
      if checkAborted issued abortAfter then ([], .error .abortError)
      else
        let r : GetObjectRequest :=
          { range := some (left, right)
            ifMatch := if base.versionId.isNone then initialETag else none }
        let left1 := right + 1
        let right1 := minCap (left1 + MIN_PART_SIZE - 1) maxRange
        let nxt := rangeLoop abortAfter base initialETag totalSize maxRange fuel
          (issued + 1) left1 right1
        (.getObjectRequest r :: nxt.1, nxt.2)
    else ([], .ok ())

/-- Total size as download reads it from a response:
ContentRange ? parseInt(ContentRange.split("/")[1]) : undefined. -/
def totalFromResponse (resp : GetObjectResponse) : Option Nat :=
  resp.contentRange.map (fun c => c.2.2)

/-- Shallow embedding of the latest variant's download method.  In source
order: checkAborted at entry (before anything else); registration of the
call-scoped listeners from transferOptions; the explicit-PartNumber guard that
throws "partNumber included: ..."; then the PART or RANGE branch.  PART with
no caller Range awaits part 1, dispatches transferInitiated, and issues parts
2..PartsCount through partLoop; PART with a caller Range awaits that single
request and dispatches transferInitiated.  RANGE computes the first window
from targetPartSizeBytes (or from the caller range capped by MIN_PART_SIZE),
awaits it, and issues the remaining windows through rangeLoop - dispatching no
transferInitiated event anywhere in that branch.  cleanupWiredToStream is true
exactly when control falls through to the joinStreams call, i.e. when no error
was thrown. -/
def download (cfg : TMConfig) (req : DownloadRequest) (hasCallScopedListeners : Bool)
    (abortAfter : Option Nat) (oracle : GetObjectRequest → GetObjectResponse) : DownloadTrace :=
  if checkAborted 0 abortAfter then
    { actions := [], result := .error .abortError, cleanupWiredToStream := false }
  else
    let regActs : List DownloadAction :=
      if hasCallScopedListeners then [.registerCallScopedListeners] else []
    match req.partNumber with
    | some _ =>
      { actions := regActs, result := .error .partNumberUnsupported,
        cleanupWiredToStream := false }
    | none =>
      match cfg.multipartDownloadType with
      | .part =>
        match req.range with
        | none =>
          let initReq : GetObjectRequest := { partNumber := some 1, range := none, ifMatch := none }
          let resp := oracle initReq
          let totalSize := totalFromResponse resp
          let partsCount := resp.partsCount.getD 0
          let tail :=
            if partsCount > 1 then
              partLoop abortAfter req resp.eTag (List.range' 2 (partsCount - 1)) 1
            else ([], .ok ())
          { actions := regActs ++ .getObjectRequest initReq ::
              .transferInitiatedEvent totalSize :: tail.1
            result := tail.2
            cleanupWiredToStream := tail.2 matches .ok _ }
        | some _ =>
          let gReq : GetObjectRequest := { partNumber := none, range := req.range, ifMatch := none }
          let resp := oracle gReq
          let totalSize := totalFromResponse resp
          { actions := regActs ++ [.getObjectRequest gReq, .transferInitiatedEvent totalSize]
            result := .ok ()
            cleanupWiredToStream := true }
      | .range =>
        let init : Nat × Nat × Option Nat :=
          match req.range with
          | none => (0, cfg.targetPartSizeBytes - 1, none)
          | some (a, b) => (a, min b (a + MIN_PART_SIZE - 1), some b)
        let left := init.1
        let right := init.2.1
        let maxRange := init.2.2
        let initReq : GetObjectRequest := { range := some (left, right), ifMatch := none }
        let resp := oracle initReq
        let totalSize := totalFromResponse resp
        let left1 := right + 1
        let right1 := minCap (left1 + MIN_PART_SIZE - 1) maxRange
        let tail := rangeLoop abortAfter req resp.eTag totalSize maxRange
          (totalSize.getD 0 + 1) 1 left1 right1
        { actions := regActs ++ .getObjectRequest initReq :: tail.1
          result := tail.2
          cleanupWiredToStream := tail.2 matches .ok _ }

/-- Sub-requests issued during the call, in order. -/
def issuedRequests (t : DownloadTrace) : List GetObjectRequest :=
  t.actions.filterMap (fun a =>
    match a with
    | .getObjectRequest r => some r
    | _ => none)

/-- Number of transferInitiated dispatches in the call. -/
def initiatedCount (t : DownloadTrace) : Nat :=
  t.actions.countP (fun a => a matches .transferInitiatedEvent _)

/-- True when a transferInitiated event occurs before any sub-request in the
action log. -/
def initiatedBeforeAnyRequest : List DownloadAction → Bool
  | [] => false
  | .getObjectRequest _ :: _ => false
  | .transferInitiatedEvent _ :: _ => true
  | .registerCallScopedListeners :: rest => initiatedBeforeAnyRequest rest

/-- Object-store oracle for end-to-end scenario B: an object of 13,631,488
bytes; a ranged GetObject answers with ContentRange clamped to the object's
last byte and the object's ETag. -/
def oracleScenarioB : GetObjectRequest → GetObjectResponse := fun r =>
  { contentRange := r.range.map (fun lr => (lr.1, min lr.2 13631487, 13631488))
    partsCount := none
    eTag := some "etagB" }

/-- Object-store oracle for end-to-end scenario A: a 3-part object; part
reads answer with PartsCount = 3 and the object's ETag. -/
def oracleScenarioA : GetObjectRequest → GetObjectResponse := fun _ =>
  { contentRange := some (0, 4194303, 12582912)
    partsCount := some 3
    eTag := some "etagA" }

/-- Oracle answering every request with an empty response. -/
def emptyOracle : GetObjectRequest → GetObjectResponse := fun _ => {}

/-
Helper lemmas.
-/

/-- When every handle is drainable (web or node), iterateStreams yields the
chunks of each handle in position order and raises no error. -/
theorem iterateStreams_drainable (streams : List StreamHandle)
    (h : ∀ s ∈ streams, isDrainable s = true) :
    iterateStreams streams = ((streams.map chunksOf).flatten, none) := by
  induction streams with
  | nil => rfl
  | cons s rest ih =>
    have hs : isDrainable s = true := h s (List.mem_cons_self s rest)
    have hrest : ∀ x ∈ rest, isDrainable x = true := fun x hx => h x (List.mem_cons_of_mem s hx)
    cases s with
    | web cs => simp [iterateStreams, ih hrest, chunksOf]
    | node cs => simp [iterateStreams, ih hrest, chunksOf]
    | blob => simp [isDrainable] at hs
    | other => simp [isDrainable] at hs

/-- Flattening the per-handle chunks once more gives the concatenation of the
per-handle byte sequences. -/
theorem flatten_chunksOf (streams : List StreamHandle) :
    ((streams.map chunksOf).flatten).flatten = (streams.map streamBytes).flatten := by
  induction streams with
  | nil => rfl
  | cons s rest ih => simp [streamBytes, ih]

/-
Claim theorems.
-/

/-- Claim C1, counterexample: for a RANGE-strategy download with no
caller-specified range of an object of declared total size 13,631,488 with
targetPartSizeBytes = 5,242,880, the issued sub-request ranges are NOT the
claimed windows ending at bytes=10485760-13631487: the last issued window is
not clamped to the declared total minus one. -/
theorem download_rangeStrategy_lastWindowNotClamped_cex :
    ¬ ((issuedRequests (download ⟨.range, 5242880⟩ {} false none oracleScenarioB)).map
        (fun r => r.range) =
      [some (0, 5242879), some (5242880, 10485759), some (10485760, 13631487)]) := by
  decide

/-- Claim C1, amended: for that same RANGE-strategy download the issued
sub-request ranges are exactly bytes=0-5242879, bytes=5242880-10485759 and
bytes=10485760-15728639 - contiguous windows that stop once the declared total
is covered, but whose last window ends at left + MIN_PART_SIZE - 1 = 15728639,
overrunning the declared total size 13,631,488 rather than being clamped to
13,631,487. -/
theorem download_rangeStrategy_windows :
    (issuedRequests (download ⟨.range, 5242880⟩ {} false none oracleScenarioB)).map
        (fun r => r.range) =
      [some (0, 5242879), some (5242880, 10485759), some (10485760, 15728639)] ∧
    (download ⟨.range, 5242880⟩ {} false none oracleScenarioB).result = .ok () ∧
    13631487 < 15728639 := by
  decide

/-- Claim C2: for every list of drainable byte streams handed to the Stream
Joiner in index order, the joined output's byte sequence equals the
concatenation of the parts' bytes in index order 0..N-1; consumption is
positional (stream 0 is drained fully before stream 1 starts), so the
underlying arrival order cannot influence the output. -/
theorem joinStreams_concat (streams : List StreamHandle)
    (h : ∀ s ∈ streams, isDrainable s = true) :
    joinStreamsBytes streams = .ok ((streams.map streamBytes).flatten) := by
  match streams with
  | [] => rfl
  | [s] => simp [joinStreamsBytes]
  | a :: b :: rest =>
    have ha : isDrainable a = true := h a (List.mem_cons_self a (b :: rest))
    have hiter := iterateStreams_drainable (a :: b :: rest) h
    cases a with
    | web cs => simp [joinStreamsBytes, hiter, streamBytes, flatten_chunksOf rest]
    | node cs => simp [joinStreamsBytes, hiter, streamBytes, flatten_chunksOf rest]
    | blob => simp [isDrainable] at ha
    | other => simp [isDrainable] at ha

/-- Witness for C2 at a concrete input: joining a node stream with chunks
[1,2],[3] and a web stream with chunks [4],[5,6] yields the concatenation of
their bytes. -/
theorem joinStreams_concat_witness :
    joinStreamsBytes [StreamHandle.node [[1, 2], [3]], StreamHandle.web [[4], [5, 6]]] =
      .ok (([StreamHandle.node [[1, 2], [3]],
        StreamHandle.web [[4], [5, 6]]].map streamBytes).flatten) :=
  joinStreams_concat _ (by decide)

/-- Claim C3: for every pair of parsed well-formed content-range descriptors
for consecutive parts, validateExpectedRanges reports a RangeSequenceError
naming the expected start (previous end + 1) and the actual start if and only
if the current part's start differs from previous end + 1; in particular
validating bytes 0-5242879/13631488 then bytes 5242881-10485759/13631488 for
part 2 reports expected 5242880, got 5242881, while the contiguous pair
passes. -/
theorem validateExpectedRanges_rangeSequence_iff (previous current : ContentRange)
    (partNum : Nat) :
    ((∃ e g, validateExpectedRanges previous current partNum =
        .error (.rangeSequenceError partNum e g) ∧ e = previous.stop + 1 ∧ g = current.start) ↔
      current.start ≠ previous.stop + 1) ∧
    validateExpectedRanges ⟨0, 5242879, 13631488⟩ ⟨5242881, 10485759, 13631488⟩ 2 =
      .error (.rangeSequenceError 2 5242880 5242881) ∧
    validateExpectedRanges ⟨0, 5242879, 13631488⟩ ⟨5242880, 10485759, 13631488⟩ 2 = .ok () := by
  refine ⟨⟨?_, ?_⟩, by decide, by decide⟩
  · rintro ⟨e, g, hres, rfl, rfl⟩
    intro heq
    rw [validateExpectedRanges] at hres
    simp only [heq, ne_eq, not_true_eq_false, if_false] at hres
    split at hres <;> simp_all
  · intro hne
    refine ⟨previous.stop + 1, current.start, ?_, rfl, rfl⟩
    rw [validateExpectedRanges]
    simp [hne]

/-- Claim C4, counterexample: a DownloadRequest carrying an explicit
PartNumber does not resolve as a single-part fetch; the latest download
variant throws the partNumber-unsupported error before issuing any
sub-request. -/
theorem download_partNumber_throws_cex :
    (download ⟨.part, DEFAULT_PART_SIZE⟩ { partNumber := some 5 } false none emptyOracle).result =
      .error .partNumberUnsupported ∧
    issuedRequests
      (download ⟨.part, DEFAULT_PART_SIZE⟩ { partNumber := some 5 } false none emptyOracle) =
      [] := by
  decide

/-- Claim C4, amended: in the latest variant, every DownloadRequest carrying
an explicit PartNumber is rejected up front - download throws the
partNumber-unsupported error (directing callers to GetObjectCommand) and no
sub-request is issued; the single-sub-request single-part fetch exists only in
the earlier transfer-manager variant. -/
theorem download_partNumber_rejected (cfg : TMConfig) (req : DownloadRequest)
    (hl : Bool) (abortAfter : Option Nat) (oracle : GetObjectRequest → GetObjectResponse)
    (n : Nat) (hpn : req.partNumber = some n) (hab : checkAborted 0 abortAfter = false) :
    (download cfg req hl abortAfter oracle).result = .error .partNumberUnsupported ∧
    issuedRequests (download cfg req hl abortAfter oracle) = [] := by
  unfold download
  rw [hab, hpn]
  cases hl <;> simp [issuedRequests]

/-- Witness for the amended C4 at a concrete input. -/
theorem download_partNumber_rejected_witness :
    (download ⟨.part, DEFAULT_PART_SIZE⟩ { partNumber := some 3 } true (some 7)
        emptyOracle).result = .error .partNumberUnsupported ∧
    issuedRequests (download ⟨.part, DEFAULT_PART_SIZE⟩ { partNumber := some 3 } true (some 7)
        emptyOracle) = [] :=
  download_partNumber_rejected _ _ _ _ _ 3 rfl rfl

/-- Claim C5: for every download call whose abort signal is already set at
invocation time, the entry checkAborted throws AbortError before the
call-scoped listeners are registered and before any sub-request is issued:
the action log is empty. -/
theorem download_abortedAtInvocation (cfg : TMConfig) (req : DownloadRequest) (hl : Bool)
    (oracle : GetObjectRequest → GetObjectResponse) :
    (download cfg req hl (some 0) oracle).result = .error .abortError ∧
    issuedRequests (download cfg req hl (some 0) oracle) = [] ∧
    (download cfg req hl (some 0) oracle).actions = [] :=
  ⟨rfl, rfl, rfl⟩

/-- Claim C6, code bug: an AbortError thrown by the in-plan cancellation
check does NOT deregister the call-scoped listeners before surfacing - in a
RANGE download whose signal becomes set after the first sub-request, the
listeners were registered, the loop's checkAborted throws AbortError, and the
removeLocalEventListeners cleanup was never wired (it only runs from the
joined stream's onCompletion/onFailure callbacks, which are only attached
when control reaches joinStreams). -/
theorem download_abortMidPlan_listenerLeak :
    (download ⟨.range, 5242880⟩ {} true (some 1) oracleScenarioB).result =
      .error .abortError ∧
    DownloadAction.registerCallScopedListeners ∈
      (download ⟨.range, 5242880⟩ {} true (some 1) oracleScenarioB).actions ∧
    (download ⟨.range, 5242880⟩ {} true (some 1) oracleScenarioB).cleanupWiredToStream =
      false := by
  decide

/-- Claim C7, counterexample: the latest variant's construction does not
raise for a checksumAlgorithm outside the five recognized values - resolving
defaults and validating with "MD5" succeeds, because the latest
validateConfig checks only the part size. -/
theorem constructLatest_invalidChecksum_cex :
    "MD5" ∉ recognizedChecksumAlgorithms ∧
    constructLatest none (some "MD5") = .ok (DEFAULT_PART_SIZE, "MD5") := by
  decide

/-- Claim C7, amended: the earlier variant's validateConfig raises the
checksum ConfigError for every checksumAlgorithm outside the five recognized
values and accepts each of the five (with a valid part size), while the
latest variant's construction validates only targetPartSizeBytes and
therefore succeeds for any checksumAlgorithm whenever the part size is
valid. -/
theorem validateConfig_checksum_variants (ps : Nat) (alg : String)
    (hps : MIN_PART_SIZE ≤ ps) (halg : alg ∉ recognizedChecksumAlgorithms) :
    validateConfigEarly ps alg = .error .invalidChecksumAlgorithm ∧
    (∀ a ∈ recognizedChecksumAlgorithms, validateConfigEarly ps a = .ok ()) ∧
    constructLatest (some ps) (some alg) = .ok (ps, alg) := by
  have h1 : ¬ ps < MIN_PART_SIZE := Nat.not_lt.mpr hps
  refine ⟨?_, ?_, ?_⟩
  · have h2 : alg ≠ "CRC32" ∧ alg ≠ "CRC32C" ∧ alg ≠ "CRC64NVME" ∧ alg ≠ "SHA1" ∧
        alg ≠ "SHA256" := by
      simpa [recognizedChecksumAlgorithms] using halg
    rw [validateConfigEarly, if_neg h1, if_pos h2]
  · intro a ha
    rw [validateConfigEarly, if_neg h1]
    fin_cases ha <;> decide
  · simp [constructLatest, validateConfigLatest, h1]

/-- Witness for the amended C7 at a concrete input. -/
theorem validateConfig_checksum_variants_witness :
    validateConfigEarly MIN_PART_SIZE "MD5" = .error .invalidChecksumAlgorithm ∧
    (∀ a ∈ recognizedChecksumAlgorithms, validateConfigEarly MIN_PART_SIZE a = .ok ()) ∧
    constructLatest (some MIN_PART_SIZE) (some "MD5") = .ok (MIN_PART_SIZE, "MD5") :=
  validateConfig_checksum_variants MIN_PART_SIZE "MD5" (Nat.le_refl _) (by decide)

/-- Claim C8, code bug: in the latest variant the RANGE strategy dispatches
no transferInitiated event at all (count 0 for a full multipart range
download), while the PART strategy dispatches it exactly once, after the
first sub-request and never before any network activity. -/
theorem download_transferInitiated_byStrategy :
    initiatedCount (download ⟨.range, 5242880⟩ {} false none oracleScenarioB) = 0 ∧
    initiatedCount (download ⟨.part, DEFAULT_PART_SIZE⟩ {} false none oracleScenarioA) = 1 ∧
    initiatedBeforeAnyRequest
      (download ⟨.part, DEFAULT_PART_SIZE⟩ {} false none oracleScenarioA).actions = false := by
  decide

/-- Claim C9, code bug: dispatchEvent iterates the live listener array by
index, so when a once-registered listener removes itself during dispatch the
listener registered immediately after it is skipped in that same dispatch
(here only callback 10 runs and callback 20 - registered before the dispatch
started - is never invoked), whereas without a once listener both callbacks
run in registration order. -/
theorem dispatchEvent_onceRemoval_skipsNext :
    (dispatchEvent (addEventListener (addEventListener [] 0 10 true false) 1 20 false false)).1 =
      [10] ∧
    20 ∉ (dispatchEvent
        (addEventListener (addEventListener [] 0 10 true false) 1 20 false false)).1 ∧
    (dispatchEvent [⟨0, 10, false⟩, ⟨1, 20, false⟩]).1 = [10, 20] := by
  decide

/-- Claim C10: an element of the input list that is neither a web
ReadableStream nor a Blob nor a Node Readable falls through every branch of
iterateStreams - it is skipped silently, contributing zero bytes and raising
no error, so the iteration of a list containing it equals the iteration of
the list without it; joining such a list yields a stream that is merely
missing that part's bytes. -/
theorem iterateStreams_skipsUnrecognized (pre post : List StreamHandle) :
    iterateStreams (pre ++ StreamHandle.other :: post) = iterateStreams (pre ++ post) ∧
    joinStreamsBytes [StreamHandle.node [[7]], StreamHandle.other, StreamHandle.node [[8], [9]]] =
      .ok [7, 8, 9] := by
  constructor
  · induction pre with
    | nil => rfl
    | cons s rest ih => cases s <;> simp [iterateStreams, ih]
  · decide

end S3TM
